import Mathlib

/-!
Shallow embedding of `src/v2.py` (periodic-table sample-tracker renderer).

The program merges a JSON payload describing up-to-4 samples per chemical
element against a built-in 118-entry periodic-table catalog
(`assemble_elements`) and renders a self-contained HTML document
(`render_html`) with a 10x18 cell grid (7 main rows, one spacer row, the
lanthanide row and the actinide row), a legend and a filter script.

Modelling conventions:
* Python `str` is modelled as Lean `String`; `str.lower`, `str.isalnum`
  and `str.strip` are modelled by their ASCII behaviour, which coincides
  with Python on ASCII input.
* Python dicts are modelled as update-functions built by `List.foldl`
  (later bindings override earlier ones, `dict.get` of a missing key is
  `none`), or as ordered association lists where iteration order matters.
* JSON dynamic typing is abstracted: sample `value`/`state`/`color` fields
  arrive as strings, so `str(...)` applied to them is the identity.
-/

set_option maxRecDepth 10000

namespace V2

/-- One entry of the `PERIODIC_TABLE` constant: atomic number `z`, symbol,
English name, group (1-18) and period (1-7). -/
structure PTElem where
  z : Nat
  symbol : String
  name : String
  group : Nat
  period : Nat
deriving DecidableEq, Repr


/-- Part 1 of the `PERIODIC_TABLE` constant of `src/v2.py` (split only to keep list-literal elaboration cheap). -/
def PT_1 : List PTElem := [
  ⟨1, "H", "Hydrogen", 1, 1⟩,
  ⟨2, "He", "Helium", 18, 1⟩,
  ⟨3, "Li", "Lithium", 1, 2⟩,
  ⟨4, "Be", "Beryllium", 2, 2⟩,
  ⟨5, "B", "Boron", 13, 2⟩,
  ⟨6, "C", "Carbon", 14, 2⟩,
  ⟨7, "N", "Nitrogen", 15, 2⟩,
  ⟨8, "O", "Oxygen", 16, 2⟩,
  ⟨9, "F", "Fluorine", 17, 2⟩,
  ⟨10, "Ne", "Neon", 18, 2⟩,
  ⟨11, "Na", "Sodium", 1, 3⟩,
  ⟨12, "Mg", "Magnesium", 2, 3⟩,
  ⟨13, "Al", "Aluminium", 13, 3⟩,
  ⟨14, "Si", "Silicon", 14, 3⟩,
  ⟨15, "P", "Phosphorus", 15, 3⟩,
  ⟨16, "S", "Sulfur", 16, 3⟩,
  ⟨17, "Cl", "Chlorine", 17, 3⟩,
  ⟨18, "Ar", "Argon", 18, 3⟩,
  ⟨19, "K", "Potassium", 1, 4⟩,
  ⟨20, "Ca", "Calcium", 2, 4⟩,
  ⟨21, "Sc", "Scandium", 3, 4⟩,
  ⟨22, "Ti", "Titanium", 4, 4⟩,
  ⟨23, "V", "Vanadium", 5, 4⟩,
  ⟨24, "Cr", "Chromium", 6, 4⟩,
  ⟨25, "Mn", "Manganese", 7, 4⟩,
  ⟨26, "Fe", "Iron", 8, 4⟩,
  ⟨27, "Co", "Cobalt", 9, 4⟩,
  ⟨28, "Ni", "Nickel", 10, 4⟩,
  ⟨29, "Cu", "Copper", 11, 4⟩,
  ⟨30, "Zn", "Zinc", 12, 4⟩
]

/-- Part 2 of the `PERIODIC_TABLE` constant of `src/v2.py` (split only to keep list-literal elaboration cheap). -/
def PT_2 : List PTElem := [
  ⟨31, "Ga", "Gallium", 13, 4⟩,
  ⟨32, "Ge", "Germanium", 14, 4⟩,
  ⟨33, "As", "Arsenic", 15, 4⟩,
  ⟨34, "Se", "Selenium", 16, 4⟩,
  ⟨35, "Br", "Bromine", 17, 4⟩,
  ⟨36, "Kr", "Krypton", 18, 4⟩,
  ⟨37, "Rb", "Rubidium", 1, 5⟩,
  ⟨38, "Sr", "Strontium", 2, 5⟩,
  ⟨39, "Y", "Yttrium", 3, 5⟩,
  ⟨40, "Zr", "Zirconium", 4, 5⟩,
  ⟨41, "Nb", "Niobium", 5, 5⟩,
  ⟨42, "Mo", "Molybdenum", 6, 5⟩,
  ⟨43, "Tc", "Technetium", 7, 5⟩,
  ⟨44, "Ru", "Ruthenium", 8, 5⟩,
  ⟨45, "Rh", "Rhodium", 9, 5⟩,
  ⟨46, "Pd", "Palladium", 10, 5⟩,
  ⟨47, "Ag", "Silver", 11, 5⟩,
  ⟨48, "Cd", "Cadmium", 12, 5⟩,
  ⟨49, "In", "Indium", 13, 5⟩,
  ⟨50, "Sn", "Tin", 14, 5⟩,
  ⟨51, "Sb", "Antimony", 15, 5⟩,
  ⟨52, "Te", "Tellurium", 16, 5⟩,
  ⟨53, "I", "Iodine", 17, 5⟩,
  ⟨54, "Xe", "Xenon", 18, 5⟩,
  ⟨55, "Cs", "Caesium", 1, 6⟩,
  ⟨56, "Ba", "Barium", 2, 6⟩,
  ⟨57, "La", "Lanthanum", 3, 6⟩,
  ⟨58, "Ce", "Cerium", 3, 6⟩,
  ⟨59, "Pr", "Praseodymium", 3, 6⟩,
  ⟨60, "Nd", "Neodymium", 3, 6⟩
]

/-- Part 3 of the `PERIODIC_TABLE` constant of `src/v2.py` (split only to keep list-literal elaboration cheap). -/
def PT_3 : List PTElem := [
  ⟨61, "Pm", "Promethium", 3, 6⟩,
  ⟨62, "Sm", "Samarium", 3, 6⟩,
  ⟨63, "Eu", "Europium", 3, 6⟩,
  ⟨64, "Gd", "Gadolinium", 3, 6⟩,
  ⟨65, "Tb", "Terbium", 3, 6⟩,
  ⟨66, "Dy", "Dysprosium", 3, 6⟩,
  ⟨67, "Ho", "Holmium", 3, 6⟩,
  ⟨68, "Er", "Erbium", 3, 6⟩,
  ⟨69, "Tm", "Thulium", 3, 6⟩,
  ⟨70, "Yb", "Ytterbium", 3, 6⟩,
  ⟨71, "Lu", "Lutetium", 3, 6⟩,
  ⟨72, "Hf", "Hafnium", 4, 6⟩,
  ⟨73, "Ta", "Tantalum", 5, 6⟩,
  ⟨74, "W", "Tungsten", 6, 6⟩,
  ⟨75, "Re", "Rhenium", 7, 6⟩,
  ⟨76, "Os", "Osmium", 8, 6⟩,
  ⟨77, "Ir", "Iridium", 9, 6⟩,
  ⟨78, "Pt", "Platinum", 10, 6⟩,
  ⟨79, "Au", "Gold", 11, 6⟩,
  ⟨80, "Hg", "Mercury", 12, 6⟩,
  ⟨81, "Tl", "Thallium", 13, 6⟩,
  ⟨82, "Pb", "Lead", 14, 6⟩,
  ⟨83, "Bi", "Bismuth", 15, 6⟩,
  ⟨84, "Po", "Polonium", 16, 6⟩,
  ⟨85, "At", "Astatine", 17, 6⟩,
  ⟨86, "Rn", "Radon", 18, 6⟩,
  ⟨87, "Fr", "Francium", 1, 7⟩,
  ⟨88, "Ra", "Radium", 2, 7⟩,
  ⟨89, "Ac", "Actinium", 3, 7⟩,
  ⟨90, "Th", "Thorium", 3, 7⟩
]

/-- Part 4 of the `PERIODIC_TABLE` constant of `src/v2.py` (split only to keep list-literal elaboration cheap). -/
def PT_4 : List PTElem := [
  ⟨91, "Pa", "Protactinium", 3, 7⟩,
  ⟨92, "U", "Uranium", 3, 7⟩,
  ⟨93, "Np", "Neptunium", 3, 7⟩,
  ⟨94, "Pu", "Plutonium", 3, 7⟩,
  ⟨95, "Am", "Americium", 3, 7⟩,
  ⟨96, "Cm", "Curium", 3, 7⟩,
  ⟨97, "Bk", "Berkelium", 3, 7⟩,
  ⟨98, "Cf", "Californium", 3, 7⟩,
  ⟨99, "Es", "Einsteinium", 3, 7⟩,
  ⟨100, "Fm", "Fermium", 3, 7⟩,
  ⟨101, "Md", "Mendelevium", 3, 7⟩,
  ⟨102, "No", "Nobelium", 3, 7⟩,
  ⟨103, "Lr", "Lawrencium", 3, 7⟩,
  ⟨104, "Rf", "Rutherfordium", 4, 7⟩,
  ⟨105, "Db", "Dubnium", 5, 7⟩,
  ⟨106, "Sg", "Seaborgium", 6, 7⟩,
  ⟨107, "Bh", "Bohrium", 7, 7⟩,
  ⟨108, "Hs", "Hassium", 8, 7⟩,
  ⟨109, "Mt", "Meitnerium", 9, 7⟩,
  ⟨110, "Ds", "Darmstadtium", 10, 7⟩,
  ⟨111, "Rg", "Roentgenium", 11, 7⟩,
  ⟨112, "Cn", "Copernicium", 12, 7⟩,
  ⟨113, "Nh", "Nihonium", 13, 7⟩,
  ⟨114, "Fl", "Flerovium", 14, 7⟩,
  ⟨115, "Mc", "Moscovium", 15, 7⟩,
  ⟨116, "Lv", "Livermorium", 16, 7⟩,
  ⟨117, "Ts", "Tennessine", 17, 7⟩,
  ⟨118, "Og", "Oganesson", 18, 7⟩
]

/-- The built-in 118-element catalog `PERIODIC_TABLE` of `src/v2.py`. -/
def PERIODIC_TABLE : List PTElem :=
  PT_1 ++ PT_2 ++ PT_3 ++ PT_4


/-- The test `57 <= z <= 71 or 89 <= z <= 103` used by `build_position_map`
to skip lanthanides and actinides. -/
def isFBlock (z : Nat) : Bool :=
  (57 ≤ z && z ≤ 71) || (89 ≤ z && z ≤ 103)

/-- Model of `build_position_map`: a dict keyed by `(period, group)`.
The Python code initialises every key in 1..7 x 1..18 to `None` and then
writes each non-f-block element at its `(period, group)`; the dict is
modelled as a function, where an absent key and a `None` value are both
`none` (matching `dict.get`). -/
def build_position_map : Nat × Nat → Option Nat :=
  PERIODIC_TABLE.foldl
    (fun pos elem =>
      if isFBlock elem.z then pos
      else fun pg => if pg = (elem.period, elem.group) then some elem.z else pos pg)
    (fun _ => none)

/-- Model of `assign_f_block`: the ordered lists of lanthanide and actinide
atomic numbers, taken from `PERIODIC_TABLE` in table order. -/
def assign_f_block : List Nat × List Nat :=
  ((PERIODIC_TABLE.filter (fun e => 57 ≤ e.z && e.z ≤ 71)).map (fun e => e.z),
   (PERIODIC_TABLE.filter (fun e => 89 ≤ e.z && e.z ≤ 103)).map (fun e => e.z))

/-- Model of `build_cell_positions`: `build_position_map` with the two
f-block anchor keys `(6, 3)` and `(7, 3)` overwritten to `None`. -/
def build_cell_positions : Nat × Nat → Option Nat :=
  fun pg => if pg = (6, 3) then none else if pg = (7, 3) then none else build_position_map pg

/-- The characters removed by Python `str.strip()` (ASCII whitespace). -/
def isPySpace (c : Char) : Bool :=
  c = ' ' || c = '\t' || c = '\n' || c = '\r' || c.toNat = 11 || c.toNat = 12

/-- Model of Python `str.strip()`: drop ASCII whitespace from both ends. -/
def pyStrip (s : String) : String :=
  String.mk ((s.data.dropWhile isPySpace).rdropWhile isPySpace)

/-- A merged per-slot sample: the `Sample` dataclass of `src/v2.py`. -/
structure Sample where
  value : String
  state : String
  color : String
deriving DecidableEq, Repr

/-- A merged element record: the `SheetElement` dataclass of `src/v2.py`. -/
structure SheetElement where
  z : Nat
  symbol : String
  name : String
  samples : List Sample
deriving DecidableEq, Repr

/-- A raw sample object from the JSON payload (fields already stringified,
see the module docstring on dynamic typing). -/
structure InSample where
  value : String
  state : String
  color : String
deriving DecidableEq, Repr

/-- A raw entry of the payload's `elements` list. -/
structure InEntry where
  symbol : String
  samples : List InSample
deriving DecidableEq, Repr

/-- The JSON payload: `elements`, the optional ordered `legend`
(color -> label) and the `labelColors` mapping (label -> color). -/
structure PayloadData where
  elements : List InEntry
  legend : Option (List (String × String))
  labelColors : List (String × String)
deriving DecidableEq, Repr

/-- Lookup in a dict represented as an ordered association list: the last
binding for the key wins, as with repeated Python dict assignment. -/
def dictGet (l : List (String × String)) (k : String) : Option String :=
  ((l.filter (fun p => p.1 = k)).getLast?).map (fun p => p.2)

/-- The `sheet_map` dict built at the top of `assemble_elements`: entries
whose stripped symbol is empty are skipped, later entries overwrite
earlier ones with the same stripped symbol. -/
def sheet_map (entries : List InEntry) : String → Option InEntry :=
  entries.foldl
    (fun m entry =>
      let sym := pyStrip entry.symbol
      if sym = "" then m
      else fun k => if k = sym then some entry else m k)
    (fun _ => none)

/-- The per-sample normalisation in the body of `assemble_elements`:
`value` stringified, `state` and `color` stripped, and a missing colour
back-filled from `label_colors` when the state is non-empty. -/
def mkSample (label_colors : List (String × String)) (s : InSample) : Sample :=
  let val_str := s.value
  let state := pyStrip s.state
  let color0 := pyStrip s.color
  let color := if state ≠ "" ∧ color0 = "" then (dictGet label_colors state).getD "" else color0
  ⟨val_str, state, color⟩

/-- The all-empty sample used for padding. -/
def emptySample : Sample := ⟨"", "", ""⟩

/-- The `while len(samples_info) < 4: append(empty)` loop: pad on the right
with empty samples up to length 4 (a longer list is left unchanged). -/
def padSamples (l : List Sample) : List Sample :=
  l ++ List.replicate (4 - l.length) emptySample

/-- Model of `assemble_elements`: one `SheetElement` per `PERIODIC_TABLE`
entry, in table (ascending-z) order, joining the payload by symbol. -/
def assemble_elements (data : PayloadData) (label_colors : List (String × String)) :
    List SheetElement :=
  PERIODIC_TABLE.map fun meta =>
    match sheet_map data.elements meta.symbol with
    | some entry =>
        ⟨meta.z, meta.symbol, meta.name, padSamples (entry.samples.map (mkSample label_colors))⟩
    | none => ⟨meta.z, meta.symbol, meta.name, List.replicate 4 emptySample⟩


/-- The global CSS block of `render_html` (the Python `css` triple-quoted
string), byte for byte. -/
def css : String :=
  "\n:root\x7b\n  --cell-size: clamp(60px, 5.5vw, 90px);\n  --gap: 4px;\n  --border-radius: 6px;\n  --border-colour: rgba(0,0,0,0.2);\n  --empty-bg: #f5f5f5;\n  --empty-bg-dark: #222;\n\x7d\n@media (prefers-color-scheme: dark)\x7b\n  :root\x7b\n    --border-colour: rgba(255,255,255,0.25);\n    --empty-bg: #20252a;\n    --empty-bg-dark: #111;\n  \x7d\n\x7d\nbody\x7b\n  margin: 0;\n  font-family: system-ui, -apple-system, BlinkMacSystemFont, \"Segoe UI\", Roboto, sans-serif;\n  background: var(--empty-bg-dark);\n  color: #eee;\n\x7d\nh1\x7b\n  margin: 16px;\n  font-size: 20px;\n  text-align: center;\n\x7d\n.table\x7b\n  display: grid;\n  grid-template-columns: repeat(18, var(--cell-size));\n  grid-auto-rows: var(--cell-size);\n  gap: var(--gap);\n  justify-content: center;\n  padding: 16px;\n\x7d\n.cell\x7b\n  position: relative;\n  width: var(--cell-size);\n  height: var(--cell-size);\n  border: 1px solid var(--border-colour);\n  border-radius: var(--border-radius);\n  background: var(--empty-bg);\n\x7d\n.cell.empty\x7b\n  background: transparent;\n  border: none;\n\x7d\n.cell.spacer\x7b\n  height: calc(var(--cell-size) / 2);\n  background: transparent;\n  border: none;\n\x7d\n.cell.element\x7b\n  /* sempre sfondo chiaro e testo nero per leggibilità */\n  background: #ffffff;\n  color: #000000;\n  overflow: hidden;\n  cursor: default;\n\x7d\n/* nessuna variazione in dark mode: il testo resta nero */\n.symbol\x7b\n  font-size: 18px;\n  font-weight: 600;\n  line-height: 1;\n  padding: 4px 4px 2px 4px;\n  color: #000000;\n\x7d\n/* atomic number */\n.number\x7b\n  position: absolute;\n  top: 2px;\n  right: 4px;\n  font-size: 9px;\n  color: #000000;\n  pointer-events: none;\n\x7d\n.samples\x7b\n  display: grid;\n  grid-template-columns: repeat(2, 1fr);\n  grid-template-rows: repeat(2, 1fr);\n  width: 100%;\n  height: calc(100% - 24px);\n\x7d\n.samples .quarter\x7b\n  position: relative;\n  border: 1px solid var(--border-colour);\n  box-sizing: border-box;\n  display: flex;\n  align-items: center;\n  justify-content: center;\n  font-size: 11px;\n  color: #000000;\n\x7d\n.samples .quarter .sidx\x7b\n  position: absolute;\n  top: 2px;\n  left: 2px;\n  font-size: 9px;\n  color: #444444;\n  pointer-events: none;\n\x7d\n  /* disable hover tooltip when popups are used */\n  .cell[data-tip]:hover::after\x7b\n    display: none;\n  \x7d\n.quarter.filtered\x7b\n  opacity: 0.15;\n\x7d\n.legend-item\x7b\n  cursor: pointer;\n\x7d\n.legend-item.active\x7b\n  box-shadow: 0 0 0 2px rgba(0,120,212,0.8);\n\x7d\n.legend\x7b\n  display: flex;\n  flex-wrap: wrap;\n  justify-content: center;\n  gap: 8px;\n  padding: 8px 16px 24px 16px;\n  font-size: 13px;\n\x7d\n.legend-item\x7b\n  display: flex;\n  align-items: center;\n  gap: 4px;\n  background: var(--empty-bg);\n  border: 1px solid var(--border-colour);\n  border-radius: var(--border-radius);\n  padding: 2px 6px;\n  color: #000000; /* testi neri sui bottoni della legenda */\n\x7d\n.legend-colour\x7b\n  width: 14px;\n  height: 14px;\n  border-radius: 3px;\n  display: inline-block;\n  border: 1px solid var(--border-colour);\n\x7d\n  /* overlay and popup styles */\n  .overlay\x7b\n    position: fixed;\n    top: 0;\n    left: 0;\n    width: 100%;\n    height: 100%;\n    background: rgba(0,0,0,0.5);\n    display: none;\n    z-index: 999;\n  \x7d\n  .overlay.visible\x7b\n    display: block;\n  \x7d\n  .popup\x7b\n    position: fixed;\n    top: 50%;\n    left: 50%;\n    transform: translate(-50%, -50%);\n    background: #ffffff;\n    color: #000000;\n    padding: 16px;\n    border-radius: 8px;\n    box-shadow: 0 2px 10px rgba(0,0,0,0.2);\n    max-width: 320px;\n    min-width: 260px;\n    display: none;\n    z-index: 1000;\n  \x7d\n  .popup.visible\x7b\n    display: block;\n  \x7d\n"

/-- The part of the `script` f-string of `render_html` before the
interpolated `elements_js_object`. -/
def scriptPre : String :=
  "\n<script>\nconst elementsData = "

/-- The part of the `script` f-string of `render_html` after the
interpolated `elements_js_object`. -/
def scriptPost : String :=
  ";\ndocument.addEventListener(\x27DOMContentLoaded\x27, function() \x7b\n  const legendItems = document.querySelectorAll(\x27.legend-item\x27);\n  legendItems.forEach(item => \x7b\n    item.addEventListener(\x27click\x27, function() \x7b\n      const state = this.getAttribute(\x27data-state\x27);\n      legendItems.forEach(li => li.classList.toggle(\x27active\x27, li === this));\n      document.querySelectorAll(\x27.quarter\x27).forEach(q => \x7b\n        const qState = q.getAttribute(\x27data-state\x27);\n        if (!state || state === \x27\x27) \x7b\n          q.classList.remove(\x27filtered\x27);\n        \x7d else if (qState !== state) \x7b\n          q.classList.add(\x27filtered\x27);\n        \x7d else \x7b\n          q.classList.remove(\x27filtered\x27);\n        \x7d\n      \x7d);\n    \x7d);\n  \x7d);\n  // Popup handling\n  const overlay = document.getElementById(\x27overlay\x27);\n  const popup = document.getElementById(\x27popup\x27);\n  // Close popup when clicking outside\n  overlay.addEventListener(\x27click\x27, function() \x7b\n    overlay.classList.remove(\x27visible\x27);\n    popup.classList.remove(\x27visible\x27);\n  \x7d);\n  // Attach click handlers on element cells\n  document.querySelectorAll(\x27.cell.element\x27).forEach(el => \x7b\n    el.addEventListener(\x27click\x27, function(e) \x7b\n      e.stopPropagation();\n      const z = this.getAttribute(\x27data-z\x27);\n      const info = elementsData[z];\n      if (!info) return;\n      let html = \x60<h2>$\x7binfo.symbol\x7d – $\x7binfo.name\x7d (Z=$\x7binfo.z\x7d)</h2><ul>\x60;\n      info.samples.forEach((s, i) => \x7b\n        const st = s.state ? s.state : \x27-\x27;\n        const val = s.value ? s.value : \x27\x27;\n        html += \x60<li><strong>Campione $\x7bi+1\x7d:</strong> $\x7bst\x7d – $\x7bval\x7d</li>\x60;\n      \x7d);\n      html += \x27</ul>\x27;\n      popup.innerHTML = html;\n      overlay.classList.add(\x27visible\x27);\n      popup.classList.add(\x27visible\x27);\n    \x7d);\n  \x7d);\n\x7d);\n</script>\n"


/-- Lookup of an element by atomic number: the `elem_by_z` dict built at
the top of `render_html`, modelled as an update-function. -/
def elem_by_z (elements : List SheetElement) : Nat → Option SheetElement :=
  elements.foldl (fun m e => fun k => if k = e.z then some e else m k) (fun _ => none)

/-- The `legend_order` list of `render_html`: the ordered `legend`
(color -> label) inverted when present, otherwise the `labelColors`
items in their given order. -/
def legend_order (data : PayloadData) : List (String × String) :=
  match data.legend with
  | some legend => legend.map fun p => (p.2, p.1)
  | none => data.labelColors

/-- One character of Python `html.escape(s, quote=True)`. Escaping `&`
first and then the other four characters is equivalent to this single
per-character map. -/
def escChar (c : Char) : List Char :=
  if c = '&' then "&amp;".data
  else if c = '<' then "&lt;".data
  else if c = '>' then "&gt;".data
  else if c = '"' then "&quot;".data
  else if c.toNat = 39 then "&#x27;".data
  else [c]

/-- The `esc` helper of `render_html`: `html.escape(s, quote=True)`. -/
def esc (s : String) : String :=
  String.mk (s.data.flatMap escChar)

/-- The character substitution inside `sanitize_label`: keep alphanumeric
characters, replace anything else with a dash. -/
def sanitizeChar (c : Char) : Char :=
  if c.isAlphanum then c else '-'

/-- The dash predicate for `str.strip('-')`. -/
def isDash (c : Char) : Bool :=
  c.toNat = 45

/-- Python `"".join(out).strip('-')`: drop dashes from both ends. -/
def stripDashes (l : List Char) : List Char :=
  (l.dropWhile isDash).rdropWhile isDash

/-- Character-list core of `sanitize_label`: lower-case, replace each
non-alphanumeric character with a dash, strip dashes at both ends. -/
def sanitizeCore (l : List Char) : List Char :=
  stripDashes ((l.map Char.toLower).map sanitizeChar)

/-- The `sanitize_label` helper of `render_html`: sanitise a state label
into a CSS-friendly identifier. -/
def sanitize_label (label : String) : String :=
  String.mk (sanitizeCore label.data)

/-- The `render_sample_quarter` helper of `render_html`: one quarter div
for one sample. -/
def render_sample_quarter (sample : Sample) (idx : Nat) : String :=
  let bg := if sample.color ≠ "" then sample.color else "#eaeaea"
  let label_index := toString (idx + 1)
  let tooltip_parts : List String :=
    (if sample.state ≠ "" then [esc sample.state] else []) ++
      (if sample.value ≠ "" then [esc sample.value] else [])
  let tip_text := if tooltip_parts ≠ [] then esc (String.intercalate " | " tooltip_parts) else ""
  let state_class := if sample.state ≠ "" then " state-" ++ sanitize_label sample.state else ""
  let data_state := if sample.state ≠ "" then sanitize_label sample.state else ""
  "<div class=\"quarter" ++ state_class ++ "\" style=\"background:" ++ esc bg ++ "\" " ++
    "data-state=\"" ++ esc data_state ++ "\" data-tip=\"" ++ tip_text ++
    "\"><span class=\"sidx\">" ++ esc label_index ++ "</span></div>"

/-- The lanthanide sequence (first component of `assign_f_block`). -/
def lanths : List Nat := assign_f_block.1

/-- The actinide sequence (second component of `assign_f_block`). -/
def actins : List Nat := assign_f_block.2

/-- The atomic number (if any) that the cell loop of `render_html` assigns
to grid position `(row, col)`, rows 1-10 and columns 1-18: rows 1-7 from
`build_cell_positions`, rows 9 and 10 from the f-block sequences at
columns 4-18. Row 8 is the spacer row and never carries a number. -/
def cellZ (row col : Nat) : Option Nat :=
  let z0 : Option Nat := if row ≤ 7 then build_cell_positions (row, col) else none
  let z1 : Option Nat :=
    if row = 9 ∧ 4 ≤ col ∧ col ≤ 18 then
      match lanths.get? (col - 4) with
      | some w => some w
      | none => z0
    else z0
  if row = 10 ∧ 4 ≤ col ∧ col ≤ 18 then
    match actins.get? (col - 4) with
    | some w => some w
    | none => z1
  else z1

/-- The empty-cell div emitted by `render_html`. -/
def emptyCellStr : String := "<div class=\"cell empty\"></div>"

/-- The spacer-cell div emitted by `render_html` for every column of
row 8. -/
def spacerCellStr : String := "<div class=\"cell spacer empty\"></div>"

/-- One line of the aggregate cell tooltip for sample index `i` (empty if
the sample has neither state nor value). -/
def sampleTooltipLine (i : Nat) (s : Sample) : List String :=
  let parts :=
    (if s.state ≠ "" then [s.state] else []) ++ (if s.value ≠ "" then [s.value] else [])
  if parts ≠ [] then [toString (i + 1) ++ ": " ++ String.intercalate "; " parts] else []

/-- The aggregate `data-tip` tooltip of a populated cell: name, atomic
number, and one line per non-empty sample. -/
def cellTooltip (e : SheetElement) : String :=
  let lines :=
    [esc e.name, "Z=" ++ toString e.z] ++
      (e.samples.enum.flatMap fun p => sampleTooltipLine p.1 p.2)
  esc (String.intercalate "\n" lines)

/-- The populated-cell div of `render_html`. The source indexes
`e.samples[i]` for `i` in 0..3, which presupposes at least four samples
(always true for `assemble_elements` output); the model's `emptySample`
default on a shorter list is unreachable in the pipeline. -/
def elementCellHtml (e : SheetElement) : String :=
  let quarters :=
    String.join ((List.range 4).map fun i =>
      render_sample_quarter ((e.samples.get? i).getD emptySample) i)
  "<div class=\"cell element\" data-tip=\"" ++ cellTooltip e ++ "\" data-z=\"" ++
    toString e.z ++ "\">" ++
    "<div class=\"number\">" ++ toString e.z ++ "</div>" ++
    "<div class=\"symbol\">" ++ esc e.symbol ++ "</div>" ++
    "<div class=\"samples\">" ++ quarters ++ "</div>" ++
    "</div>"

/-- One cell of the grid loop of `render_html`. -/
def cellHtml (ebz : Nat → Option SheetElement) (row col : Nat) : String :=
  if row = 8 then spacerCellStr
  else
    match cellZ row col with
    | none => emptyCellStr
    | some z =>
      match ebz z with
      | none => emptyCellStr
      | some e => elementCellHtml e

/-- The `cells_html` list of `render_html`: rows 1..10, columns 1..18 in
row-major order. -/
def cells_html (elements : List SheetElement) : List String :=
  (List.range 10).flatMap fun r => (List.range 18).map fun c => cellHtml (elem_by_z elements) (r + 1) (c + 1)

/-- One legend item div of `render_html`. -/
def legendItemHtml (label color : String) : String :=
  let color_hex := if color.startsWith "#" then color else color
  let state_id := sanitize_label label
  "<div class=\"legend-item\" data-state=\"" ++ esc state_id ++
    "\"><span class=\"legend-colour\" " ++ "style=\"background:" ++ esc color_hex ++
    "\"></span>" ++ esc label ++ "</div>"

/-- The `legend_html` list of `render_html`: one item per legend entry
with a non-empty label, in `legend_order` order. -/
def legend_html (data : PayloadData) : List String :=
  ((legend_order data).filter (fun p => p.1 ≠ "")).map fun p => legendItemHtml p.1 p.2

/-- The joined `legend_block` string of `render_html`. -/
def legend_block (data : PayloadData) : String :=
  String.join (legend_html data)

/-- One hex digit (lower case) as produced by Python `json.dumps`. -/
def hexDigit (n : Nat) : Char :=
  if n < 10 then Char.ofNat (48 + n) else Char.ofNat (87 + n)

/-- A `\uXXXX` escape of `json.dumps`. -/
def u16Escape (n : Nat) : List Char :=
  ['\\', 'u', hexDigit (n / 4096 % 16), hexDigit (n / 256 % 16), hexDigit (n / 16 % 16),
    hexDigit (n % 16)]

/-- Per-character escaping of Python `json.dumps` with the default
`ensure_ascii=True`. -/
def jsonEscapeChar (c : Char) : List Char :=
  if c.toNat = 34 then ['\\', '"']
  else if c.toNat = 92 then ['\\', '\\']
  else if c.toNat = 10 then ['\\', 'n']
  else if c.toNat = 13 then ['\\', 'r']
  else if c.toNat = 9 then ['\\', 't']
  else if c.toNat = 8 then ['\\', 'b']
  else if c.toNat = 12 then ['\\', 'f']
  else if c.toNat < 32 then u16Escape c.toNat
  else if c.toNat < 127 then [c]
  else if c.toNat < 65536 then u16Escape c.toNat
  else u16Escape (55296 + (c.toNat - 65536) / 1024) ++ u16Escape (56320 + (c.toNat - 65536) % 1024)

/-- A JSON string literal as produced by `json.dumps`. -/
def jsonString (s : String) : String :=
  "\"" ++ String.mk (s.data.flatMap jsonEscapeChar) ++ "\""

/-- `json.dumps` of the per-sample dict `{"state": ..., "value": ...}`
built in the `elements_js_entries` loop of `render_html`. -/
def sampleJson (s : Sample) : String :=
  "\x7b\"state\": " ++ jsonString s.state ++ ", \"value\": " ++ jsonString s.value ++ "\x7d"

/-- `json.dumps` of one `entry` dict of the `elements_js_entries` loop. -/
def entryJson (e : SheetElement) : String :=
  "\x7b\"z\": " ++ toString e.z ++ ", \"symbol\": " ++ jsonString e.symbol ++
    ", \"name\": " ++ jsonString e.name ++ ", \"samples\": [" ++
    String.intercalate ", " (e.samples.map sampleJson) ++ "]\x7d"

/-- The `elements_js_object` literal embedded in the script block. -/
def elements_js_object (elements : List SheetElement) : String :=
  "\x7b\n    " ++
    String.intercalate ",\n    " (elements.map fun e => toString e.z ++ ": " ++ entryJson e) ++
    "\n  \x7d"

/-- The full `<script>` block of `render_html`. -/
def scriptBlock (elements : List SheetElement) : String :=
  scriptPre ++ elements_js_object elements ++ scriptPost

/-- Model of `render_html`: the joined `html_parts` list. -/
def render_html (elements : List SheetElement) (data : PayloadData) (title : String) : String :=
  String.intercalate "\n"
    ["<!doctype html>",
     "<html lang=\"en\">",
     "<head>",
     "  <meta charset=\"utf-8\">",
     "  <meta name=\"viewport\" content=\"width=device-width, initial-scale=1\">",
     "  <title>" ++ esc title ++ "</title>",
     "  <style>" ++ css ++ "</style>",
     "</head>",
     "<body>",
     "  <h1>" ++ esc title ++ "</h1>",
     "  <div class=\"table\">",
     "    " ++ String.join (cells_html elements),
     "  </div>",
     "  <div class=\"legend\">",
     "    " ++ legend_block data,
     "  </div>",
     "  <div id=\"overlay\" class=\"overlay\"></div>",
     "  <div id=\"popup\" class=\"popup\"></div>",
     scriptBlock elements,
     "</body>",
     "</html>"]


/-! ### Concrete inputs used by witnesses and counterexamples -/

/-- A payload whose single entry supplies five samples for hydrogen. -/
def fiveSamplePayload : PayloadData :=
  ⟨[⟨"H", [⟨"s1", "", ""⟩, ⟨"s2", "", ""⟩, ⟨"s3", "", ""⟩, ⟨"s4", "", ""⟩, ⟨"s5", "", ""⟩]⟩],
    none, []⟩

/-- The concrete payload of claim C6: one hydrogen entry with a single
sample whose colour must be back-filled from the legend. -/
def c6Payload : PayloadData :=
  ⟨[⟨"H", [⟨"A1", "in arrivo", ""⟩]⟩], none, [("in arrivo", "#00ff00")]⟩

/-- A fully empty payload: no entities, empty legend, empty label-colour
mapping. -/
def emptyData : PayloadData := ⟨[], some [], []⟩

/-- The list of main-grid coordinates `(period, group)`,
periods 1..7 and groups 1..18, written in the iteration order of
`build_position_map`. -/
def gridCoords : List (Nat × Nat) :=
  (List.range 7).flatMap fun p => (List.range 18).map fun g => (p + 1, g + 1)

/-! ### C1 -/

/-- C1 counterexample: `assemble_elements` does not truncate a supplied
sample list to 4 slots - with five supplied samples the merged hydrogen
record keeps all five, so "each with exactly 4 SampleRecord slots" is
false. -/
theorem c1_counterexample :
    ¬ ∀ e ∈ assemble_elements fiveSamplePayload [], e.samples.length = 4 := by
  decide

/-- C1 amended: `assemble_elements` always returns exactly 118 records,
and each record has `max 4 n` sample slots where `n` is the number of
samples supplied for its symbol (0 when the symbol is missing): short or
missing lists are padded to exactly 4 with fully-empty records, while a
list of more than 4 supplied samples is kept whole, not truncated (only
the first 4 are ever rendered). -/
theorem c1_merge_shape (data : PayloadData) (lc : List (String × String)) :
    (assemble_elements data lc).length = 118 ∧
      ∀ e ∈ assemble_elements data lc,
        4 ≤ e.samples.length ∧
          e.samples.length =
            max 4 (match sheet_map data.elements e.symbol with
                   | some entry => entry.samples.length
                   | none => 0) := by
  constructor
  · simp only [assemble_elements, List.length_map]
    decide
  · intro e he
    simp only [assemble_elements, List.mem_map] at he
    obtain ⟨meta, _, rfl⟩ := he
    cases h : sheet_map data.elements meta.symbol with
    | none =>
        simp [h, padSamples, List.length_replicate]
    | some entry =>
        simp only [h, padSamples, List.length_append, List.length_replicate, List.length_map]
        omega

/-- The hydrogen record produced by merging `fiveSamplePayload`. -/
def fiveSampleMergedH : SheetElement :=
  ⟨1, "H", "Hydrogen",
    [⟨"s1", "", ""⟩, ⟨"s2", "", ""⟩, ⟨"s3", "", ""⟩, ⟨"s4", "", ""⟩, ⟨"s5", "", ""⟩]⟩

/-- Witness for `c1_merge_shape` at the five-sample payload: the merged
hydrogen record keeps at least 4 slots. -/
theorem c1_merge_shape_witness :
    (assemble_elements fiveSamplePayload []).length = 118 ∧
      4 ≤ fiveSampleMergedH.samples.length :=
  ⟨(c1_merge_shape fiveSamplePayload []).1,
    ((c1_merge_shape fiveSamplePayload []).2 fiveSampleMergedH (by decide)).1⟩

/-! ### C2 -/

/-- C2 counterexample: `sanitize_label` replaces each non-alphanumeric
character with its own dash instead of collapsing runs, so the two
spellings do not normalise to the same tag. -/
theorem c2_counterexample :
    ¬ sanitize_label "Da Comprare!" = sanitize_label "da   comprare" := by
  decide

/-! ### C4 -/

/-- C4: in the rendered grid, auxiliary-row slot `k` (0-based) is placed
at column `4 + k`; auxiliary row 1 (grid row 9) carries id `57 + k` there
and auxiliary row 2 (grid row 10) carries id `89 + k`, so id 57 lands at
column 4 and id 71 at column 18 with no gaps. -/
theorem c4_aux_row_columns (k : Nat) (hk : k < 15) :
    cellZ 9 (4 + k) = some (57 + k) ∧ cellZ 10 (4 + k) = some (89 + k) := by
  interval_cases k <;> exact ⟨by decide, by decide⟩

/-- Witness for `c4_aux_row_columns` at the last slot `k = 14`
(column 18). -/
theorem c4_aux_row_columns_witness :
    14 < 15 ∧ (cellZ 9 (4 + 14) = some (57 + 14) ∧ cellZ 10 (4 + 14) = some (89 + 14)) :=
  ⟨by decide, c4_aux_row_columns 14 (by decide)⟩

/-! ### C6 -/

/-- C6: merging the payload with one hydrogen sample
`{value := "A1", state := "in arrivo", color := ""}` under the legend
`{"in arrivo" ↦ "#00ff00"}` yields, for id 1, a record whose first sample
has its colour resolved from the legend and whose samples 2-4 are fully
empty. -/
theorem c6_legend_color_backfill :
    (assemble_elements c6Payload [("in arrivo", "#00ff00")]).head? =
      some ⟨1, "H", "Hydrogen",
        [⟨"A1", "in arrivo", "#00ff00"⟩, ⟨"", "", ""⟩, ⟨"", "", ""⟩, ⟨"", "", ""⟩]⟩ := by
  decide

/-! ### C7 -/

/-- C7: on a completely empty payload the pipeline still succeeds: the
legend renders no items, the merge still yields 118 records whose samples
are all fully empty, the grid still carries exactly 118 populated cells
among its 180 positions, every quarter of an empty sample renders with
the neutral background `#eaeaea`, an empty filter tag and an empty
tooltip, and the full document still renders (it starts with the doctype
line). -/
theorem c7_empty_render :
    legend_html emptyData = [] ∧
      (assemble_elements emptyData []).length = 118 ∧
      (∀ e ∈ assemble_elements emptyData [], e.samples = List.replicate 4 emptySample) ∧
      ((List.range 10).flatMap fun r =>
          (List.range 18).map fun c => cellZ (r + 1) (c + 1)).countP Option.isSome = 118 ∧
      (∀ i < 4, render_sample_quarter emptySample i =
        "<div class=\"quarter\" style=\"background:#eaeaea\" data-state=\"\" " ++
          "data-tip=\"\"><span class=\"sidx\">" ++ toString (i + 1) ++ "</span></div>") ∧
      "<!doctype html>".data.isPrefixOf
        (render_html (assemble_elements emptyData []) emptyData
          "Periodic Table with Samples").data = true := by
  refine ⟨by decide, by decide, by decide, by decide, ?_, by decide⟩
  intro i hi
  interval_cases i <;> decide


/-- Witness for `c7_empty_render`: the all-empty merged hydrogen record
and quarter slot 0 instantiate its bounded quantifiers. -/
theorem c7_empty_render_witness :
    legend_html emptyData = [] ∧
      (⟨1, "H", "Hydrogen", List.replicate 4 emptySample⟩ : SheetElement).samples =
        List.replicate 4 emptySample ∧
      render_sample_quarter emptySample 0 =
        "<div class=\"quarter\" style=\"background:#eaeaea\" data-state=\"\" " ++
          "data-tip=\"\"><span class=\"sidx\">" ++ toString (0 + 1) ++ "</span></div>" :=
  ⟨c7_empty_render.1,
    c7_empty_render.2.2.1 ⟨1, "H", "Hydrogen", List.replicate 4 emptySample⟩ (by decide),
    c7_empty_render.2.2.2.2.1 0 (by decide)⟩

/-! ### C9 -/

/-- C9: rendering is deterministic - running the merge-and-render
pipeline on equal payloads, label-colour mappings and titles produces
byte-identical output strings. In this embedding the pipeline is a pure
function, so two runs on identical input are definitionally equal. -/
theorem c9_render_deterministic (d₁ d₂ : PayloadData) (lc₁ lc₂ : List (String × String))
    (t₁ t₂ : String) (hd : d₁ = d₂) (hlc : lc₁ = lc₂) (ht : t₁ = t₂) :
    render_html (assemble_elements d₁ lc₁) d₁ t₁ =
      render_html (assemble_elements d₂ lc₂) d₂ t₂ := by
  subst hd; subst hlc; subst ht; rfl

/-- Witness for `c9_render_deterministic` at the C6 payload. -/
theorem c9_render_deterministic_witness :
    render_html (assemble_elements c6Payload [("in arrivo", "#00ff00")]) c6Payload "T" =
      render_html (assemble_elements c6Payload [("in arrivo", "#00ff00")]) c6Payload "T" :=
  c9_render_deterministic c6Payload c6Payload _ _ "T" "T" rfl rfl rfl


/-! ### C10 -/

/-- The payload entries that bind key `k` in `sheet_map`: non-empty
stripped symbol equal to `k`. -/
def bindsKey (k : String) (e : InEntry) : Bool :=
  (pyStrip e.symbol != "") && (pyStrip e.symbol == k)

/-- One `sheet_map` fold step, read off the `dict` assignment loop. -/
theorem sheet_map_concat (es : List InEntry) (e : InEntry) (k : String) :
    sheet_map (es ++ [e]) k =
      if pyStrip e.symbol = "" then sheet_map es k
      else if k = pyStrip e.symbol then some e else sheet_map es k := by
  unfold sheet_map
  rw [List.foldl_append]
  simp only [List.foldl_cons, List.foldl_nil]
  by_cases h1 : pyStrip e.symbol = "" <;> simp [h1]

/-- `sheet_map` lookup is the last binding for the key. -/
theorem sheet_map_eq_filter_getLast (entries : List InEntry) (k : String) :
    sheet_map entries k = (entries.filter (bindsKey k)).getLast? := by
  induction entries using List.reverseRecOn with
  | nil => rfl
  | append_singleton es e ih =>
    rw [sheet_map_concat, List.filter_append, ih]
    by_cases h1 : pyStrip e.symbol = ""
    · simp [h1, bindsKey]
    · by_cases h2 : k = pyStrip e.symbol
      · simp [h1, h2, bindsKey, List.getLast?_concat]
      · have : (pyStrip e.symbol == k) = false := by
          simp [Ne.symm h2]
        simp [h1, h2, bindsKey, this]

/-- `sheet_map` over an append: right-hand entries shadow left-hand
ones. -/
theorem sheet_map_append (l1 l2 : List InEntry) (k : String) :
    sheet_map (l1 ++ l2) k = (sheet_map l2 k).or (sheet_map l1 k) := by
  rw [sheet_map_eq_filter_getLast, sheet_map_eq_filter_getLast, sheet_map_eq_filter_getLast,
    List.filter_append, List.getLast?_append]

/-- `sheet_map` of a single entry. -/
theorem sheet_map_singleton (e : InEntry) (k : String) :
    sheet_map [e] k =
      if pyStrip e.symbol = "" then none
      else if k = pyStrip e.symbol then some e else none := by
  simpa using sheet_map_concat [] e k

/-- `assemble_elements` reads the payload only through `sheet_map`. -/
theorem assemble_eq_of_sheet_map {l1 l2 : List InEntry}
    {lg1 lg2 : Option (List (String × String))} {lb1 lb2 : List (String × String)}
    (lc : List (String × String)) (h : ∀ s, sheet_map l1 s = sheet_map l2 s) :
    assemble_elements ⟨l1, lg1, lb1⟩ lc = assemble_elements ⟨l2, lg2, lb2⟩ lc := by
  unfold assemble_elements
  exact List.map_congr_left fun meta _ => by rw [show (⟨l1, lg1, lb1⟩ : PayloadData).elements = l1 from rfl, show (⟨l2, lg2, lb2⟩ : PayloadData).elements = l2 from rfl, h meta.symbol]

/-- C10: (i) the symbol dict keeps only the last binding per non-empty
trimmed symbol; (ii) an earlier duplicate of a later entry (same trimmed
symbol) has no effect on the merge output; (iii) an entry whose symbol is
empty after trimming is skipped entirely. -/
theorem c10_last_duplicate_wins :
    (∀ entries k, sheet_map entries k = (entries.filter (bindsKey k)).getLast?) ∧
      (∀ (pre mid post : List InEntry) (e₁ e₂ : InEntry)
          (lg : Option (List (String × String))) (lb lc : List (String × String)),
          pyStrip e₁.symbol = pyStrip e₂.symbol →
          assemble_elements ⟨pre ++ e₁ :: (mid ++ e₂ :: post), lg, lb⟩ lc =
            assemble_elements ⟨pre ++ (mid ++ e₂ :: post), lg, lb⟩ lc) ∧
      (∀ (pre post : List InEntry) (e : InEntry)
          (lg : Option (List (String × String))) (lb lc : List (String × String)),
          pyStrip e.symbol = "" →
          assemble_elements ⟨pre ++ e :: post, lg, lb⟩ lc =
            assemble_elements ⟨pre ++ post, lg, lb⟩ lc) := by
  refine ⟨sheet_map_eq_filter_getLast, ?_, ?_⟩
  · intro pre mid post e₁ e₂ lg lb lc h
    apply assemble_eq_of_sheet_map
    intro s
    rw [show e₁ :: (mid ++ e₂ :: post) = [e₁] ++ (mid ++ e₂ :: post) from rfl,
      sheet_map_append pre ([e₁] ++ (mid ++ e₂ :: post)),
      sheet_map_append [e₁] (mid ++ e₂ :: post),
      sheet_map_append pre (mid ++ e₂ :: post)]
    congr 1
    rcases h1 : sheet_map [e₁] s with _ | v
    · rw [Option.or_none]
    · rw [sheet_map_singleton] at h1
      by_cases hk : pyStrip e₁.symbol = ""
      · simp [hk] at h1
      · by_cases hs : s = pyStrip e₁.symbol
        · rw [show mid ++ e₂ :: post = mid ++ ([e₂] ++ post) from rfl,
            sheet_map_append mid ([e₂] ++ post), sheet_map_append [e₂] post]
          have h2 : sheet_map [e₂] s = some e₂ := by
            rw [sheet_map_singleton, ← h, if_neg hk, if_pos hs]
          rw [h2]
          cases hp : sheet_map post s <;> simp [Option.or]
        · simp [hk, hs] at h1
  · intro pre post e lg lb lc h
    apply assemble_eq_of_sheet_map
    intro s
    rw [show e :: post = [e] ++ post from rfl,
      sheet_map_append pre ([e] ++ post), sheet_map_append [e] post,
      sheet_map_append pre post]
    congr 1
    rw [sheet_map_singleton, if_pos h, Option.or_none]

/-- A hydrogen entry that is shadowed by a later duplicate. -/
def dupEntryA : InEntry := ⟨"H", [⟨"old", "", ""⟩]⟩

/-- The later duplicate of `dupEntryA` (same symbol after trimming). -/
def dupEntryB : InEntry := ⟨" H ", [⟨"new", "", ""⟩]⟩

/-- An entry whose symbol is empty after trimming. -/
def emptySymEntry : InEntry := ⟨"   ", [⟨"ghost", "", ""⟩]⟩

/-- Witness for `c10_last_duplicate_wins`: dropping the shadowed
duplicate, or the empty-symbol entry, leaves the merge unchanged. -/
theorem c10_last_duplicate_wins_witness :
    assemble_elements ⟨[dupEntryA, dupEntryB], none, []⟩ [] =
        assemble_elements ⟨[dupEntryB], none, []⟩ [] ∧
      assemble_elements ⟨[emptySymEntry, dupEntryA], none, []⟩ [] =
        assemble_elements ⟨[dupEntryA], none, []⟩ [] :=
  ⟨c10_last_duplicate_wins.2.1 [] [] [] dupEntryA dupEntryB none [] [] (by decide),
    c10_last_duplicate_wins.2.2 [] [dupEntryA] emptySymEntry none [] [] (by decide)⟩


/-! ### C2 / C8: sanitize_label -/

/-- Round trip of `Char.ofNat` on ASCII lower-case codepoints. -/
theorem toNat_ofNat_lower {m : Nat} (h1 : 97 ≤ m) (h2 : m ≤ 122) :
    (Char.ofNat m).toNat = m := by
  interval_cases m <;> decide

/-- `Char.toLower` written as an arithmetic conditional. -/
theorem toLower_eq (c : Char) :
    Char.toLower c = if 65 ≤ c.toNat ∧ c.toNat ≤ 90 then Char.ofNat (c.toNat + 32) else c := rfl

/-- The codepoint of a lowered character. -/
theorem toNat_toLower (c : Char) :
    (Char.toLower c).toNat =
      if 65 ≤ c.toNat ∧ c.toNat ≤ 90 then c.toNat + 32 else c.toNat := by
  rw [toLower_eq]
  by_cases h : 65 ≤ c.toNat ∧ c.toNat ≤ 90
  · rw [if_pos h, if_pos h, toNat_ofNat_lower (by omega) (by omega)]
  · rw [if_neg h, if_neg h]

/-- ASCII lower-casing is idempotent. -/
theorem toLower_toLower (c : Char) : Char.toLower (Char.toLower c) = Char.toLower c := by
  rw [toLower_eq (Char.toLower c), toNat_toLower c]
  by_cases h : 65 ≤ c.toNat ∧ c.toNat ≤ 90
  · simp only [if_pos h]
    rw [if_neg (by omega)]
  · simp only [if_neg h]

/-- The characters produced by the lower-then-substitute stage are fixed
by both maps and are alphanumeric or a dash. -/
theorem sanitize_stage_fixed (a : Char) :
    Char.toLower (sanitizeChar (Char.toLower a)) = sanitizeChar (Char.toLower a) ∧
      sanitizeChar (sanitizeChar (Char.toLower a)) = sanitizeChar (Char.toLower a) ∧
      ((sanitizeChar (Char.toLower a)).isAlphanum ∨ sanitizeChar (Char.toLower a) = '-') := by
  by_cases hb : (Char.toLower a).isAlphanum
  · rw [show sanitizeChar (Char.toLower a) = Char.toLower a from if_pos hb]
    exact ⟨toLower_toLower a, if_pos hb, Or.inl hb⟩
  · rw [show sanitizeChar (Char.toLower a) = '-' from if_neg hb]
    exact ⟨by decide, by decide, Or.inr rfl⟩

/-- Stripping dashes only removes elements. -/
theorem mem_stripDashes {l : List Char} {c : Char} (hc : c ∈ stripDashes l) : c ∈ l :=
  (List.dropWhile_suffix isDash).sublist.subset
    (( List.rdropWhile_prefix isDash (l.dropWhile isDash)).sublist.subset hc)

/-- Characters surviving `sanitizeCore` are fixed by both character maps
and are alphanumeric or a dash. -/
theorem mem_sanitizeCore_spec {l : List Char} {c : Char} (hc : c ∈ sanitizeCore l) :
    Char.toLower c = c ∧ sanitizeChar c = c ∧ (c.isAlphanum ∨ c = '-') := by
  have h1 : c ∈ (l.map Char.toLower).map sanitizeChar := mem_stripDashes hc
  rw [List.map_map] at h1
  obtain ⟨a, _, rfl⟩ := List.mem_map.mp h1
  exact sanitize_stage_fixed a

/-- A map that fixes every element of a list is the identity on it. -/
theorem map_fixed_id {f : Char → Char} {n : List Char} (h : ∀ c ∈ n, f c = c) :
    n.map f = n := by
  induction n with
  | nil => rfl
  | cons a t ih =>
      rw [List.map_cons, h a (List.mem_cons_self a t), ih fun c hc => h c (List.mem_cons_of_mem a hc)]

/-- The output of `stripDashes` does not start with a dash, so a second
front strip is the identity. -/
theorem dropWhile_stripDashes (l : List Char) :
    (stripDashes l).dropWhile isDash = stripDashes l := by
  rcases hn : stripDashes l with _ | ⟨c, t⟩
  · rfl
  · have hpre : (c :: t) <+: l.dropWhile isDash := by
      rw [← hn]; exact List.rdropWhile_prefix isDash (l.dropWhile isDash)
    obtain ⟨u, hu⟩ := hpre
    have hne : l.dropWhile isDash ≠ [] := by rw [← hu]; simp
    have hc : isDash ((l.dropWhile isDash).head hne) = false :=
      List.head_dropWhile_not isDash l hne
    have hch : (l.dropWhile isDash).head hne = c := by
      simp only [← hu, List.cons_append, List.head_cons]
    rw [hch] at hc
    rw [List.dropWhile_cons, hc]
    simp

/-- `stripDashes` is idempotent. -/
theorem stripDashes_stripDashes (l : List Char) :
    stripDashes (stripDashes l) = stripDashes l := by
  show ((stripDashes l).dropWhile isDash).rdropWhile isDash = stripDashes l
  rw [dropWhile_stripDashes]
  exact List.rdropWhile_idempotent isDash (l.dropWhile isDash)

/-- `sanitizeCore` is idempotent. -/
theorem sanitizeCore_idempotent (l : List Char) :
    sanitizeCore (sanitizeCore l) = sanitizeCore l := by
  show stripDashes (((sanitizeCore l).map Char.toLower).map sanitizeChar) = sanitizeCore l
  rw [map_fixed_id fun c hc => (mem_sanitizeCore_spec hc).1,
    map_fixed_id fun c hc => (mem_sanitizeCore_spec hc).2.1]
  exact stripDashes_stripDashes ((l.map Char.toLower).map sanitizeChar)

/-- C8: the filter-tag normalisation is idempotent - re-normalising its
own output changes nothing. -/
theorem c8_sanitize_label_idempotent (s : String) :
    sanitize_label (sanitize_label s) = sanitize_label s :=
  congrArg String.mk (sanitizeCore_idempotent s.data)

/-- C2 amended: the normalisation lowercases its input and replaces each
non-alphanumeric character with its own dash - runs are NOT collapsed -
then strips leading and trailing dashes; consequently
`"Da Comprare!"` yields `"da-comprare"` while `"da   comprare"` (three
spaces) yields `"da---comprare"`, a different tag. Every output character
is a fixed point of lower-casing and is alphanumeric or a dash. -/
theorem c2_per_char_normalisation :
    sanitize_label "Da Comprare!" = "da-comprare" ∧
      sanitize_label "da   comprare" = "da---comprare" ∧
      ∀ (s : String), ∀ c ∈ (sanitize_label s).data,
        (c.isAlphanum ∧ Char.toLower c = c) ∨ c = '-' := by
  refine ⟨by decide, by decide, ?_⟩
  intro s c hc
  have h := mem_sanitizeCore_spec (l := s.data) hc
  rcases h.2.2 with halnum | hdash
  · exact Or.inl ⟨halnum, h.1⟩
  · exact Or.inr hdash

/-- Witness for `c2_per_char_normalisation` at the character 'd' of the
normalised first example. -/
theorem c2_per_char_normalisation_witness :
    sanitize_label "Da Comprare!" = "da-comprare" ∧
      ((('d' : Char).isAlphanum ∧ Char.toLower 'd' = 'd') ∨ ('d' : Char) = '-') :=
  ⟨c2_per_char_normalisation.1,
    c2_per_char_normalisation.2.2 "Da Comprare!" 'd' (by decide)⟩


/-! ### C3 -/

set_option maxHeartbeats 4000000 in
/-- C3: for every catalog entry, the union of the main-grid coordinate
map (with the two anchor positions cleared, i.e. `build_cell_positions`)
and the flattened auxiliary sequences of `assign_f_block` contains its
atomic number exactly once: no duplicate placement, no omission. -/
theorem c3_each_id_placed_once :
    ∀ e ∈ PERIODIC_TABLE,
      gridCoords.countP (fun pg => build_cell_positions pg = some e.z) +
        (lanths ++ actins).count e.z = 1 := by
  decide

/-- Witness for `c3_each_id_placed_once` at lanthanum (id 57). -/
theorem c3_each_id_placed_once_witness :
    gridCoords.countP (fun pg => build_cell_positions pg = some (57 : Nat)) +
      (lanths ++ actins).count 57 = 1 :=
  c3_each_id_placed_once ⟨57, "La", "Lanthanum", 3, 6⟩ (by decide)

/-! ### C5 -/

set_option maxHeartbeats 4000000 in
/-- C5: the main-grid map carries an entry at `(period, group)` for every
catalog element except the two displaced 15-id sub-ranges, whose ids
appear nowhere in the map; the two anchor coordinates `(6, 3)` and
`(7, 3)` are empty. -/
theorem c5_main_grid_population :
    (∀ e ∈ PERIODIC_TABLE,
        (isFBlock e.z = false → build_cell_positions (e.period, e.group) = some e.z) ∧
          (isFBlock e.z = true → ∀ pg ∈ gridCoords, ¬ build_cell_positions pg = some e.z)) ∧
      build_cell_positions (6, 3) = none ∧ build_cell_positions (7, 3) = none := by
  refine ⟨by decide, by decide, by decide⟩

/-- Witness for `c5_main_grid_population`: hydrogen is placed at its
coordinates, lanthanum appears nowhere in the main grid, and the first
anchor is empty. -/
theorem c5_main_grid_population_witness :
    build_cell_positions (1, 1) = some 1 ∧
      ¬ build_cell_positions (6, 3) = some 57 ∧
      build_cell_positions (6, 3) = none :=
  ⟨(c5_main_grid_population.1 ⟨1, "H", "Hydrogen", 1, 1⟩ (by decide)).1 (by decide),
    (c5_main_grid_population.1 ⟨57, "La", "Lanthanum", 3, 6⟩ (by decide)).2 (by decide)
      (6, 3) (by decide),
    c5_main_grid_population.2.1⟩

end V2
